import Mathlib

/-!
Shallow embedding of the account store of `src/account_manager.py`
(`class AccountManager`, SQLite-backed).

Modelling conventions:
* SQL timestamps (`CURRENT_TIMESTAMP`, `datetime('now', ...)`) are embedded
  as `Int` epoch seconds; the string-to-time conversion of SQLite is an
  order isomorphism, so comparisons are preserved.  Every mutating
  operation takes the current time `now : Int` as an explicit argument.
* `INSERT OR REPLACE` (in `add_account`): on a conflict with the UNIQUE
  `email` column SQLite deletes the conflicting row and inserts a brand-new
  row; every column absent from the column list of the INSERT receives its
  schema default (`id` a fresh autoincrement value, `created_at` the current
  timestamp, `points` 0, `last_task_run` NULL, `status` "active",
  `notes` NULL).
* Rows are kept in rowid (insertion) order in a list; `AUTOINCREMENT` is a
  counter that never reuses ids.
* Python `bool` values are stored by sqlite3 as the integers 0/1, hence
  `verified : Bool` with `WHERE verified = 1` reading it directly.
-/

/-- One row of the `accounts` table (schema in `init_database`). -/
structure Account where
  id : Nat
  email : String
  password : String
  referral_code : String
  created_at : Int
  verified : Bool
  verification_code : Option String
  points : Int
  last_task_run : Option Int
  status : String
  cookies : Option String
  notes : Option String
  deriving Repr, DecidableEq

/-- One row of the `task_history` table (schema in `init_database`). -/
structure TaskHistoryEntry where
  id : Nat
  email : String
  task_type : String
  xp_earned : Int
  completed_at : Int
  details : Option String
  deriving Repr, DecidableEq

/-- The persistent state behind one `AccountManager` connection: the two
tables plus the AUTOINCREMENT counters. -/
structure Store where
  accounts : List Account
  history : List TaskHistoryEntry
  nextAccountId : Nat
  nextHistoryId : Nat
  deriving Repr, DecidableEq

/-- State of `init_database` on a fresh file: both tables empty (the CREATE TABLE IF
NOT EXISTS statements are idempotent and never touch existing rows). -/
def Store.empty : Store :=
  { accounts := [], history := [], nextAccountId := 1, nextHistoryId := 1 }

/-- Operation `add_account`: `INSERT OR REPLACE INTO accounts (email, password,
referral_code, verified, verification_code, cookies) VALUES (?,?,?,?,?,?)`.
A row with the same email is deleted; the new row takes schema defaults for
every column not in the column list. -/
def add_account (email password referral_code : String) (verified : Bool)
    (verification_code cookies : Option String) (now : Int) (s : Store) : Store :=
  let newRow : Account :=
    { id := s.nextAccountId
      email := email
      password := password
      referral_code := referral_code
      created_at := now
      verified := verified
      verification_code := verification_code
      points := 0
      last_task_run := none
      status := "active"
      cookies := cookies
      notes := none }
  { s with
    accounts := (s.accounts.filter (fun a => a.email ≠ email)) ++ [newRow]
    nextAccountId := s.nextAccountId + 1 }

/-- Operation `get_account_by_email`: `SELECT * FROM accounts WHERE email = ?`,
first (only) matching row or `None`. -/
def get_account_by_email (email : String) (s : Store) : Option Account :=
  s.accounts.find? (fun a => a.email = email)

/-- Operation `get_all_accounts`: `SELECT * FROM accounts ORDER BY created_at DESC`. -/
def get_all_accounts (s : Store) : List Account :=
  s.accounts.mergeSort (fun a b => decide (b.created_at ≤ a.created_at))

/-- Operation `get_verified_accounts`: `WHERE verified = 1 AND status = "active"`. -/
def get_verified_accounts (s : Store) : List Account :=
  s.accounts.filter (fun a => a.verified ∧ a.status = "active")

/-- Operation `get_pending_accounts`: `WHERE verified = 0`. -/
def get_pending_accounts (s : Store) : List Account :=
  s.accounts.filter (fun a => a.verified = false)

/-- Operation `update_account_points`: `UPDATE accounts SET points = points + ?,
last_task_run = CURRENT_TIMESTAMP WHERE email = ?`.  Matching zero rows is
not an error. -/
def update_account_points (email : String) (points_earned : Int) (now : Int)
    (s : Store) : Store :=
  { s with
    accounts := s.accounts.map (fun a =>
      if a.email = email then
        { a with points := a.points + points_earned, last_task_run := some now }
      else a) }

/-- Operation `record_task_completion`: `INSERT INTO task_history (email, task_type,
xp_earned, details) VALUES (?,?,?,?)`; `completed_at` defaults to the
current timestamp. -/
def record_task_completion (email task_type : String) (xp_earned : Int)
    (details : Option String) (now : Int) (s : Store) : Store :=
  { s with
    history := s.history ++
      [{ id := s.nextHistoryId
         email := email
         task_type := task_type
         xp_earned := xp_earned
         completed_at := now
         details := details }]
    nextHistoryId := s.nextHistoryId + 1 }

/-- The row filter of `get_accounts_needing_tasks`: `verified = 1 AND
status = 'active' AND (last_task_run IS NULL OR datetime(last_task_run) <
datetime('now', '-\x7bhours_since\x7d hours'))`. -/
def needsTasks (hours_since : Int) (now : Int) (a : Account) : Bool :=
  a.verified && a.status = "active" &&
    (match a.last_task_run with
     | none => true
     | some t => decide (t < now - hours_since * 3600))

/-- Operation `get_accounts_needing_tasks(hours_since=20)`. -/
def get_accounts_needing_tasks (hours_since : Int) (now : Int) (s : Store) :
    List Account :=
  s.accounts.filter (needsTasks hours_since now)

/-- Operation `delete_account`: `DELETE FROM accounts WHERE email = ?` then
`DELETE FROM task_history WHERE email = ?`, one commit. -/
def delete_account (email : String) (s : Store) : Store :=
  { s with
    accounts := s.accounts.filter (fun a => a.email ≠ email)
    history := s.history.filter (fun h => h.email ≠ email) }

/-- The dictionary returned by `get_stats`. -/
structure Stats where
  total_accounts : Nat
  verified_accounts : Nat
  pending_accounts : Nat
  total_points : Int
  verification_rate : ℚ
  referral_stats : List (String × Nat)
  deriving Repr, DecidableEq

/-- The `GROUP BY referral_code` histogram, `ORDER BY count DESC`. -/
def referralHistogram (l : List Account) : List (String × Nat) :=
  ((l.map (fun a => a.referral_code)).dedup.map
      (fun c => (c, (l.filter (fun a => a.referral_code = c)).length))).mergeSort
    (fun x y => decide (y.2 ≤ x.2))

/-- Operation `get_stats`: the COUNT/SUM aggregates plus the guarded verification
rate `(verified_accounts / total_accounts * 100) if total_accounts > 0
else 0` (Python true division). -/
def get_stats (s : Store) : Stats :=
  let total := s.accounts.length
  let verified := (s.accounts.filter (fun a => a.verified)).length
  let pending := (s.accounts.filter (fun a => a.verified = false)).length
  { total_accounts := total
    verified_accounts := verified
    pending_accounts := pending
    total_points := (s.accounts.map (fun a => a.points)).sum
    verification_rate :=
      if total > 0 then (verified : ℚ) / (total : ℚ) * 100 else 0
    referral_stats := referralHistogram s.accounts }

/-- The JSON values `json.dump` emits for an account dict: null, integers
(sqlite3 returns `verified` as 0/1 and we embed timestamps as integers),
strings, arrays and objects with ordered keys. -/
inductive Json where
  | null : Json
  | int : Int → Json
  | str : String → Json
  | arr : List Json → Json
  | obj : List (String × Json) → Json

/-- Serialization of a nullable string column. -/
def optStrJson : Option String → Json
  | none => Json.null
  | some s => Json.str s

/-- Serialization of a nullable timestamp column. -/
def optIntJson : Option Int → Json
  | none => Json.null
  | some t => Json.int t

/-- One element of the `accounts` array of the JSON export: `dict(row)`
in the column order of the schema, booleans as the 0/1 integers sqlite3
returned them as. -/
def accountToJson (a : Account) : Json :=
  Json.obj
    [("id", Json.int a.id),
     ("email", Json.str a.email),
     ("password", Json.str a.password),
     ("referral_code", Json.str a.referral_code),
     ("created_at", Json.int a.created_at),
     ("verified", Json.int (if a.verified then 1 else 0)),
     ("verification_code", optStrJson a.verification_code),
     ("points", Json.int a.points),
     ("last_task_run", optIntJson a.last_task_run),
     ("status", Json.str a.status),
     ("cookies", optStrJson a.cookies),
     ("notes", optStrJson a.notes)]

/-- Operation `export_to_json`: the document `{"exported_at": ..., "total_accounts":
len(accounts), "accounts": accounts}` over `get_all_accounts()`. -/
def export_to_json (now : Int) (s : Store) : Json :=
  Json.obj
    [("exported_at", Json.int now),
     ("total_accounts", Json.int ((get_all_accounts s).length : Int)),
     ("accounts", Json.arr ((get_all_accounts s).map accountToJson))]

/-- Reparsing a nullable string field. -/
def parseOptStr : Json → Option (Option String)
  | Json.null => some none
  | Json.str s => some (some s)
  | _ => none

/-- Reparsing a nullable timestamp field. -/
def parseOptInt : Json → Option (Option Int)
  | Json.null => some none
  | Json.int t => some (some t)
  | _ => none

/-- Reparsing a 0/1 boolean field. -/
def parseBool01 : Json → Option Bool
  | Json.int 0 => some false
  | Json.int 1 => some true
  | _ => none

/-- Reparsing a non-negative id field. -/
def parseId : Json → Option Nat
  | Json.int i => if i < 0 then none else some i.toNat
  | _ => none

/-- Reparsing a mandatory string field. -/
def parseStr : Json → Option String
  | Json.str s => some s
  | _ => none

/-- Reparsing a mandatory integer field. -/
def parseInt : Json → Option Int
  | Json.int i => some i
  | _ => none

/-- Looking up a key of a parsed JSON object. -/
def jsonField (kvs : List (String × Json)) (k : String) : Option Json :=
  (kvs.find? (fun kv => kv.1 = k)).map (fun kv => kv.2)

/-- Reparsing one account object of the export back into its field values. -/
def parseAccount : Json → Option Account
  | Json.obj kvs => do
    let id ← jsonField kvs "id" >>= parseId
    let email ← jsonField kvs "email" >>= parseStr
    let password ← jsonField kvs "password" >>= parseStr
    let referral_code ← jsonField kvs "referral_code" >>= parseStr
    let created_at ← jsonField kvs "created_at" >>= parseInt
    let verified ← jsonField kvs "verified" >>= parseBool01
    let verification_code ← jsonField kvs "verification_code" >>= parseOptStr
    let points ← jsonField kvs "points" >>= parseInt
    let last_task_run ← jsonField kvs "last_task_run" >>= parseOptInt
    let status ← jsonField kvs "status" >>= parseStr
    let cookies ← jsonField kvs "cookies" >>= parseOptStr
    let notes ← jsonField kvs "notes" >>= parseOptStr
    pure
      { id := id, email := email, password := password,
        referral_code := referral_code, created_at := created_at,
        verified := verified, verification_code := verification_code,
        points := points, last_task_run := last_task_run, status := status,
        cookies := cookies, notes := notes }
  | _ => none

/-- Reparsing every element of the accounts array. -/
def parseAccounts : List Json → Option (List Account)
  | [] => some []
  | j :: js => do
    let a ← parseAccount j
    let rest ← parseAccounts js
    pure (a :: rest)

/-- Reparsing the whole export document. -/
def parseExport : Json → Option (Int × Int × List Account)
  | Json.obj kvs => do
    let exported_at ← jsonField kvs "exported_at" >>= parseInt
    let total_accounts ← jsonField kvs "total_accounts" >>= parseInt
    let items ← jsonField kvs "accounts" >>= (fun j =>
      match j with
      | Json.arr items => some items
      | _ => none)
    let accounts ← parseAccounts items
    pure (exported_at, total_accounts, accounts)
  | _ => none

/-- Helper: `find?` on an email predicate commutes with mapping an
email-preserving function over the rows. -/
theorem find_email_map (l : List Account) (e : String) (f : Account → Account)
    (hf : ∀ a, (f a).email = a.email) :
    (l.map f).find? (fun a => a.email = e) =
      (l.find? (fun a => a.email = e)).map f := by
  induction l with
  | nil => rfl
  | cons a l ih =>
    by_cases h : a.email = e
    · simp [List.find?_cons, hf, h]
    · simp [List.find?_cons, hf, h, ih]

/-- Helper: looking up any email after `update_account_points` returns the
updated image of the old row. -/
theorem get_account_update (s : Store) (e x : String) (d t : Int) :
    get_account_by_email x (update_account_points e d t s) =
      (get_account_by_email x s).map (fun a =>
        if a.email = e then
          { a with points := a.points + d, last_task_run := some t }
        else a) := by
  unfold get_account_by_email update_account_points
  exact find_email_map s.accounts x _ (fun a => by by_cases h : a.email = e <;> simp [h])

/-- Helper: looking up the targeted email after `update_account_points`. -/
theorem get_account_update_self (s : Store) (e : String) (d t : Int)
    (a : Account) (h : get_account_by_email e s = some a) :
    get_account_by_email e (update_account_points e d t s) =
      some { a with points := a.points + d, last_task_run := some t } := by
  have he : a.email = e := by
    have := List.find?_some h
    simpa using this
  rw [get_account_update, h]
  simp [he]

/-- Helper: `find?` for one email ignores rows filtered out for a different
email. -/
theorem find_email_filter_ne (l : List Account) (e e' : String) (hne : e' ≠ e) :
    (l.filter (fun a => a.email ≠ e')).find? (fun a => a.email = e) =
      l.find? (fun a => a.email = e) := by
  induction l with
  | nil => rfl
  | cons a l ih =>
    rw [List.filter_cons]
    by_cases h : a.email = e'
    · have hq : (decide (a.email ≠ e')) = false := by
        rw [h]; simp
      have hpa : (decide (a.email = e)) = false := by
        rw [h]; exact decide_eq_false hne
      rw [hq, if_neg Bool.false_ne_true, List.find?_cons, hpa, ih]
    · have hq : (decide (a.email ≠ e')) = true := by
        simpa using h
      rw [hq, if_pos rfl, List.find?_cons, List.find?_cons]
      by_cases h2 : a.email = e
      · rw [decide_eq_true h2]
      · rw [decide_eq_false h2, ih]

/-- Helper: after `add_account` for email `e`, looking up `e` yields exactly
the freshly inserted row. -/
theorem get_account_add_self (s : Store) (e p r : String) (v : Bool)
    (vc ck : Option String) (t : Int) :
    get_account_by_email e (add_account e p r v vc ck t s) =
      some
        { id := s.nextAccountId, email := e, password := p,
          referral_code := r, created_at := t, verified := v,
          verification_code := vc, points := 0, last_task_run := none,
          status := "active", cookies := ck, notes := none } := by
  unfold get_account_by_email add_account
  rw [List.find?_append]
  have hnone :
      (s.accounts.filter (fun a => a.email ≠ e)).find? (fun a => a.email = e) =
        none := by
    rw [List.find?_eq_none]
    intro a ha
    have := (List.mem_filter.mp ha).2
    simpa using this
  simp [hnone]

/-- Helper: serializing one account and reparsing it restores every field. -/
theorem parseAccount_accountToJson (a : Account) :
    parseAccount (accountToJson a) = some a := by
  obtain ⟨id, email, password, rc, ca, v, vc, pts, ltr, st, ck, nt⟩ := a
  have hid : parseId (Json.int (id : Int)) = some id := by
    simp [parseId]
  cases v <;> cases vc <;> cases ltr <;> cases ck <;> cases nt <;>
    simp [accountToJson, parseAccount, jsonField, hid, parseStr, parseInt,
      parseBool01, parseOptStr, parseOptInt, optStrJson, optIntJson]

/-- Helper: reparsing a serialized account list restores the list. -/
theorem parseAccounts_map_accountToJson (l : List Account) :
    parseAccounts (l.map accountToJson) = some l := by
  induction l with
  | nil => rfl
  | cons a l ih =>
    simp [parseAccounts, parseAccount_accountToJson, ih]

/-- C9: parsing the document produced by `export_to_json` yields an accounts
array with the same accounts (count and field values) as `get_all_accounts`
returned at the moment of export, and a `total_accounts` field equal to that
count. -/
theorem export_json_roundtrip (s : Store) (now : Int) :
    parseExport (export_to_json now s) =
      some (now, ((get_all_accounts s).length : Int), get_all_accounts s) := by
  simp [parseExport, export_to_json, jsonField, parseInt,
    parseAccounts_map_accountToJson]

/-- C1: for an email that already has a row, `add_account` (upsert) fully
replaces the row; every column not in the INSERT column list reverts to its
schema default (`created_at` the current time, `points` 0, `last_task_run`
null, `status` "active", `notes` null), and a second upsert with `cookies`
omitted leaves `cookies` null. -/
theorem upsert_replaces_existing_row (s : Store) (e p r : String) (v : Bool)
    (vc ck : Option String) (t : Int) (old : Account)
    (_h : get_account_by_email e s = some old) :
    get_account_by_email e (add_account e p r v vc ck t s) =
      some
        { id := s.nextAccountId, email := e, password := p, referral_code := r,
          created_at := t, verified := v, verification_code := vc, points := 0,
          last_task_run := none, status := "active", cookies := ck,
          notes := none } :=
  get_account_add_self s e p r v vc ck t

/-- Witness for C1: a second upsert of the same email with `cookies` omitted
replaces the whole row, clearing `cookies` to null. -/
theorem upsert_replaces_existing_row_witness :
    get_account_by_email "a@x"
        (add_account "a@x" "pw2" "r2" true none none 5
          (add_account "a@x" "pw" "r" false none (some "ck") 1 Store.empty)) =
      some
        { id := 2, email := "a@x", password := "pw2", referral_code := "r2",
          created_at := 5, verified := true, verification_code := none,
          points := 0, last_task_run := none, status := "active",
          cookies := none, notes := none } :=
  upsert_replaces_existing_row
    (add_account "a@x" "pw" "r" false none (some "ck") 1 Store.empty)
    "a@x" "pw2" "r2" true none none 5
    { id := 1, email := "a@x", password := "pw", referral_code := "r",
      created_at := 1, verified := false, verification_code := none,
      points := 0, last_task_run := none, status := "active",
      cookies := some "ck", notes := none }
    (by rfl)

/-- C4: each `update_account_points` call adds its delta to the stored
points and overwrites `last_task_run` with the current time, so two calls
accumulate both deltas and keep the second call's time. -/
theorem accrue_points_accumulates (s : Store) (e : String) (d1 d2 t1 t2 : Int)
    (a : Account) (h : get_account_by_email e s = some a) :
    get_account_by_email e
        (update_account_points e d2 t2 (update_account_points e d1 t1 s)) =
      some { a with points := a.points + d1 + d2, last_task_run := some t2 } := by
  have h1 := get_account_update_self s e d1 t1 a h
  have h2 := get_account_update_self _ e d2 t2 _ h1
  exact h2

/-- Witness for C4: on an account with 0 points, accruing 10 and then 5
gives 15 points and the second call's timestamp. -/
theorem accrue_points_accumulates_witness :
    get_account_by_email "a@x"
        (update_account_points "a@x" 5 9
          (update_account_points "a@x" 10 4
            (add_account "a@x" "pw" "r" true none none 1 Store.empty))) =
      some
        { id := 1, email := "a@x", password := "pw", referral_code := "r",
          created_at := 1, verified := true, verification_code := none,
          points := 15, last_task_run := some 9, status := "active",
          cookies := none, notes := none } :=
  accrue_points_accumulates
    (add_account "a@x" "pw" "r" true none none 1 Store.empty)
    "a@x" 10 5 4 9
    { id := 1, email := "a@x", password := "pw", referral_code := "r",
      created_at := 1, verified := true, verification_code := none,
      points := 0, last_task_run := none, status := "active",
      cookies := none, notes := none }
    (by rfl)

/-- C5: `update_account_points` on an email with no row is a silent no-op:
the store is returned entirely unchanged and no error is signalled (the
operation is total). -/
theorem accrue_missing_email_noop (s : Store) (e : String) (d t : Int)
    (h : get_account_by_email e s = none) :
    update_account_points e d t s = s := by
  unfold get_account_by_email at h
  have hall := List.find?_eq_none.mp h
  unfold update_account_points
  have hmap :
      s.accounts.map (fun a =>
        if a.email = e then
          { a with points := a.points + d, last_task_run := some t }
        else a) = s.accounts := by
    have hid : ∀ a ∈ s.accounts,
        (if a.email = e then
          { a with points := a.points + d, last_task_run := some t }
        else a) = a := by
      intro a ha
      have : ¬ a.email = e := by simpa using hall a ha
      rw [if_neg this]
    calc s.accounts.map _ = s.accounts.map id := List.map_congr_left hid
      _ = s.accounts := List.map_id s.accounts
  rw [hmap]

/-- Witness for C5: accruing points for a missing email leaves the store
unchanged. -/
theorem accrue_missing_email_noop_witness :
    update_account_points "missing@x" 5 9
        (add_account "a@x" "pw" "r" true none none 1 Store.empty) =
      add_account "a@x" "pw" "r" true none none 1 Store.empty :=
  accrue_missing_email_noop
    (add_account "a@x" "pw" "r" true none none 1 Store.empty)
    "missing@x" 5 9 (by rfl)

/-- C6: `get_accounts_needing_tasks 20` returns exactly the rows that are
verified, active and whose `last_task_run` is either unset or strictly
older than now minus 20 hours; a run 10 hours ago is excluded and one 21
hours ago (or never set) is included. -/
theorem due_for_tasks_characterization (s : Store) (now : Int) (a : Account) :
    a ∈ get_accounts_needing_tasks 20 now s ↔
      a ∈ s.accounts ∧ a.verified = true ∧ a.status = "active" ∧
        (a.last_task_run = none ∨
          ∃ t, a.last_task_run = some t ∧ t < now - 20 * 3600) := by
  simp only [get_accounts_needing_tasks, List.mem_filter, needsTasks]
  cases hl : a.last_task_run <;> simp [hl, and_assoc]

/-- C7: `delete_account` removes the account row for the email and every
task-history row with that email, leaves all other rows of both tables
unchanged, and a subsequent lookup of the email returns nothing. -/
theorem delete_account_removes_all (s : Store) (e : String) :
    get_account_by_email e (delete_account e s) = none ∧
      (∀ a : Account,
        a ∈ (delete_account e s).accounts ↔ a ∈ s.accounts ∧ a.email ≠ e) ∧
      (∀ h : TaskHistoryEntry,
        h ∈ (delete_account e s).history ↔ h ∈ s.history ∧ h.email ≠ e) := by
  refine ⟨?_, ?_, ?_⟩
  · unfold get_account_by_email delete_account
    rw [List.find?_eq_none]
    intro a ha
    have := (List.mem_filter.mp ha).2
    simpa using this
  · intro a
    unfold delete_account
    rw [List.mem_filter]
    simp
  · intro h
    unfold delete_account
    rw [List.mem_filter]
    simp

/-- C8: `get_stats` on an empty store reports 0 total accounts and a
verification rate of 0 (the division branch is guarded), and on any
non-empty store the rate is verified divided by total times 100. -/
theorem stats_division_safe :
    (get_stats Store.empty).total_accounts = 0 ∧
      (get_stats Store.empty).verification_rate = 0 ∧
      ∀ s : Store, s.accounts ≠ [] →
        (get_stats s).verification_rate =
          ((get_stats s).verified_accounts : ℚ) /
            ((get_stats s).total_accounts : ℚ) * 100 := by
  refine ⟨rfl, rfl, ?_⟩
  intro s hs
  have hpos : 0 < s.accounts.length := List.length_pos.mpr hs
  simp [get_stats, hpos]

/-- Witness for C8: the non-empty branch of the statement at a one-account
store. -/
theorem stats_division_safe_witness :
    (get_stats (add_account "a@x" "pw" "r" true none none 1 Store.empty)).verification_rate =
      ((get_stats (add_account "a@x" "pw" "r" true none none 1 Store.empty)).verified_accounts : ℚ) /
        ((get_stats (add_account "a@x" "pw" "r" true none none 1 Store.empty)).total_accounts : ℚ) * 100 :=
  stats_division_safe.2.2
    (add_account "a@x" "pw" "r" true none none 1 Store.empty) (by decide)

/-- C10: in every store state expressible in the model (in particular every
state reachable through the operations, whose `verified` column always holds
a boolean), `get_stats` partitions the accounts: verified plus pending
equals total. -/
theorem stats_partition (s : Store) :
    (get_stats s).verified_accounts + (get_stats s).pending_accounts =
      (get_stats s).total_accounts := by
  have key : ∀ l : List Account,
      (l.filter (fun a => a.verified)).length +
        (l.filter (fun a => a.verified = false)).length = l.length := by
    intro l
    induction l with
    | nil => rfl
    | cons a l ih =>
      cases hv : a.verified <;> simp [List.filter_cons, hv] at ih ⊢ <;> omega
  simpa [get_stats] using key s.accounts

/-- Counterexample to C2: re-upserting an existing email resets
`created_at` to the time of the second call (the REPLACE deletes the old
row and inserts a fresh one), so `created_at` is not left unchanged by
every subsequent operation. -/
theorem created_at_not_stable_counterexample :
    (get_account_by_email "a@x"
        (add_account "a@x" "pw" "r" false none none 2
          (add_account "a@x" "pw" "r" false none none 1 Store.empty))).map
        (fun x => x.created_at) = some 2 ∧
      (get_account_by_email "a@x"
          (add_account "a@x" "pw" "r" false none none 1 Store.empty)).map
        (fun x => x.created_at) = some 1 ∧
      (2 : Int) ≠ 1 :=
  ⟨rfl, rfl, by decide⟩

/-- C2 (amended): `created_at` is preserved by `update_account_points`,
`record_task_completion` and `delete_account` of a different email, but a
later `add_account` for the same email resets it to the time of that
call. -/
theorem created_at_frame_amended (s : Store) (e : String) (a : Account)
    (h : get_account_by_email e s = some a) :
    (∀ e' d t,
      (get_account_by_email e (update_account_points e' d t s)).map
        (fun x => x.created_at) = some a.created_at) ∧
    (∀ e' tt xp dt t,
      get_account_by_email e (record_task_completion e' tt xp dt t s) = some a) ∧
    (∀ e', e' ≠ e → get_account_by_email e (delete_account e' s) = some a) ∧
    (∀ p r v vc ck t,
      (get_account_by_email e (add_account e p r v vc ck t s)).map
        (fun x => x.created_at) = some t) := by
  refine ⟨?_, ?_, ?_, ?_⟩
  · intro e' d t
    rw [get_account_update s e' e d t, h]
    by_cases hx : a.email = e' <;> simp [hx]
  · intro e' tt xp dt t
    exact h
  · intro e' hne
    exact (find_email_filter_ne s.accounts e e' hne).trans h
  · intro p r v vc ck t
    rw [get_account_add_self]
    rfl

/-- Witness for amended C2: accruing points keeps the original
`created_at`. -/
theorem created_at_frame_amended_witness :
    (get_account_by_email "a@x"
        (update_account_points "a@x" 7 9
          (add_account "a@x" "pw" "r" false none none 1 Store.empty))).map
      (fun x => x.created_at) = some (1 : Int) :=
  (created_at_frame_amended
      (add_account "a@x" "pw" "r" false none none 1 Store.empty) "a@x"
      { id := 1, email := "a@x", password := "pw", referral_code := "r",
        created_at := 1, verified := false, verification_code := none,
        points := 0, last_task_run := none, status := "active",
        cookies := none, notes := none }
      (by rfl)).1 "a@x" 7 9

/-- Counterexample to C3: `add_account` on an existing email resets the
stored points to the schema default 0, so an account that had 10 points
drops to 0, and points are not monotonically non-decreasing under every
operation. -/
theorem points_not_monotone_counterexample :
    (get_account_by_email "a@x"
        (update_account_points "a@x" 10 2
          (add_account "a@x" "pw" "r" false none none 1 Store.empty))).map
      (fun x => x.points) = some 10 ∧
    (get_account_by_email "a@x"
        (add_account "a@x" "pw" "r" false none none 3
          (update_account_points "a@x" 10 2
            (add_account "a@x" "pw" "r" false none none 1 Store.empty)))).map
      (fun x => x.points) = some 0 ∧
    (0 : Int) < 10 :=
  ⟨rfl, rfl, by decide⟩

/-- C3 (amended): points never decrease under `update_account_points` with
a non-negative delta, and `record_task_completion` leaves every account
row unchanged; the exceptions forced by the code are `add_account` on an
existing email (resets points to the default 0) and a negative delta. -/
theorem points_monotone_amended (s : Store) (e x : String) (d t : Int)
    (a : Account) (hd : 0 ≤ d) (h : get_account_by_email x s = some a) :
    (∃ a', get_account_by_email x (update_account_points e d t s) = some a' ∧
        a.points ≤ a'.points) ∧
    (∀ e' tt xp dt t',
      get_account_by_email x (record_task_completion e' tt xp dt t' s) = some a) := by
  constructor
  · by_cases hx : a.email = e
    · refine ⟨{ a with points := a.points + d, last_task_run := some t }, ?_, ?_⟩
      · rw [get_account_update s e x d t, h]
        simp [hx]
      · simp only [Account.mk.injEq]
        omega
    · refine ⟨a, ?_, le_refl _⟩
      rw [get_account_update s e x d t, h]
      simp [hx]
  · intro e' tt xp dt t'
    exact h

/-- Witness for amended C3: a non-negative accrual never lowers the points
of any account. -/
theorem points_monotone_amended_witness :
    ∃ a', get_account_by_email "a@x"
        (update_account_points "b@x" 5 9
          (add_account "a@x" "pw" "r" false none none 1 Store.empty)) = some a' ∧
      (0 : Int) ≤ a'.points :=
  (points_monotone_amended
      (add_account "a@x" "pw" "r" false none none 1 Store.empty)
      "b@x" "a@x" 5 9
      { id := 1, email := "a@x", password := "pw", referral_code := "r",
        created_at := 1, verified := false, verification_code := none,
        points := 0, last_task_run := none, status := "active",
        cookies := none, notes := none }
      (by decide) (by rfl)).1
